import Mathlib

/-!
Verification development for the plexbackup repository.

The current program is the CLI in main.go together with the backup package
(zstd / slog revision): main.go calls backup.Run(ctx, logger, s3client, opts).
We embed that code shallowly: external effects (the S3 client calls, the
systemctl invocations, log output) are recorded in a trace of events, and
each external interaction's outcome is an input supplied through an
environment record, so that Run and backup become pure functions from the
environment and the options to a trace plus a result.
-/

/-- An object discovered in the bucket under the prefix: a key together with
its last-modified timestamp (modelled as an integer instant, mirroring the
LastModified time.Time field; Before on time.Time is strict comparison). -/
structure S3Object where
  key : String
  lastModified : Int
deriving DecidableEq, Repr

/-- A UTC wall-clock instant broken into calendar fields, as produced by
time.Now().UTC() and consumed by Format(time.RFC3339). -/
structure UTCTime where
  year : Nat
  month : Nat
  day : Nat
  hour : Nat
  minute : Nat
  second : Nat
deriving DecidableEq, Repr

/-- Decimal rendering of a field padded to two digits, as Go's reference
layout components 01, 02, 15, 04, 05 do. -/
def pad2 (n : Nat) : String :=
  if n < 10 then "0" ++ toString n else toString n

/-- Decimal rendering of the year padded to four digits, as Go's reference
layout component 2006 does. -/
def pad4 (n : Nat) : String :=
  if n < 10 then "000" ++ toString n
  else if n < 100 then "00" ++ toString n
  else if n < 1000 then "0" ++ toString n
  else toString n

/-- Go's Format(time.RFC3339) on a UTC time: layout
2006-01-02T15:04:05Z07:00, where a zero offset renders as the literal Z. -/
def formatRFC3339 (t : UTCTime) : String :=
  pad4 t.year ++ "-" ++ pad2 t.month ++ "-" ++ pad2 t.day ++ "T" ++
    pad2 t.hour ++ ":" ++ pad2 t.minute ++ ":" ++ pad2 t.second ++ "Z"

/-- Opts encapsulates parameters for backing up Plex's database (backup
package). The Go field Prefix is rendered pfx here because prefix is a
reserved word in Lean. -/
structure Opts where
  noPause : Bool
  service : String
  directory : String
  bucket : String
  pfx : String
deriving DecidableEq, Repr

/-- One externally visible interaction of a run: an S3 API call, a systemctl
invocation, or a structured-log record. -/
inductive Event where
  | listObjects (bucket pfx : String)
  | systemctlStop (service : String)
  | systemctlStart (service : String)
  | upload (bucket key : String)
  | deleteObject (bucket key : String)
  | logWarn (msg : String)
  | logInfo (msg : String)
  | logDebug (msg : String)
deriving DecidableEq, Repr

/-- Outcomes of every external interaction a run can perform, supplied as
inputs to the pure model. The listing is the response to ListObjectsV2; the
remaining fields are the success-or-error outcomes of the corresponding
process or SDK calls inside Run and backup. -/
structure Env where
  now : UTCTime
  listing : Except String (List S3Object)
  stopResult : Except String Unit
  tarStdoutPipeResult : Except String Unit
  zstdNewWriterResult : Except String Unit
  tarStartResult : Except String Unit
  tarWaitResult : Except String Unit
  zstdReadResult : Except String Unit
  encCloseResult : Except String Unit
  uploadResult : Except String Unit
  startResult : Except String Unit
  deleteResult : Except String Unit
deriving Repr

/-- The body of the selection loop of oldestObject: replace the candidate
when the current object's LastModified is strictly before the candidate's
(time.Time.Before), or when there is no candidate yet. -/
def oldestStep (oldest : Option S3Object) (object : S3Object) : Option S3Object :=
  match oldest with
  | none => some object
  | some old =>
    if object.lastModified < old.lastModified then some object else oldest

/-- The selection loop of oldestObject over the listed objects. -/
def oldestOf (objs : List S3Object) : Option S3Object :=
  objs.foldl oldestStep none

/-- oldestObject returns the object with the oldest LastModified attribute
within a given bucket under a given prefix, or none if no objects exist
there; the underlying ListObjectsV2 failure is propagated unchanged. -/
def oldestObject (env : Env) (bucket pfx : String) :
    List Event × Except String (Option S3Object) :=
  let ev := [Event.listObjects bucket pfx]
  match env.listing with
  | .error e => (ev, .error e)
  | .ok objs => (ev, .ok (oldestOf objs))

/-- The upload key computed in backup: Prefix concatenated with the RFC3339
rendering of time.Now().UTC() and the fixed .tar.zst suffix. -/
def backupKey (pfx : String) (t : UTCTime) : String :=
  pfx ++ formatRFC3339 t ++ ".tar.zst"

/-- Go fmt's rendering of the percent-w verb applied to the uploadErr
channel, which does not implement error: a fixed diagnostic (the runtime
channel address is elided); the received upload error does not occur in
it. -/
def uploadErrChanFmt : String := "%!w(chan error)"

/-- The backup method of Opts: sets up the tar process and the in-process
zstd encoder, launches the compression and upload goroutines, then checks
tar, the encoder and the upload in order. The Upload SDK call is issued by
its goroutine as soon as the pipes are in place, before tar is started, so
the upload event is recorded at goroutine launch. The upload-failure branch
formats the uploadErr channel itself with percent-w (the received error is
dropped), faithfully to the source. -/
def backup (env : Env) (o : Opts) : List Event × Except String Unit :=
  match env.tarStdoutPipeResult with
  | .error e => ([], .error ("failed to get stdout pipe from tar: " ++ e))
  | .ok _ =>
    match env.zstdNewWriterResult with
    | .error e => ([], .error e)
    | .ok _ =>
      let key := backupKey o.pfx env.now
      let ev := [Event.upload o.bucket key]
      match env.tarStartResult with
      | .error e => (ev, .error ("failed to start tar: " ++ e))
      | .ok _ =>
        match env.tarWaitResult with
        | .error e => (ev, .error ("tar completed with error: " ++ e))
        | .ok _ =>
          match env.zstdReadResult with
          | .error e => (ev, .error ("zstd completed with error: " ++ e))
          | .ok _ =>
            match env.encCloseResult with
            | .error e => (ev, .error ("failed to close zstd stream: " ++ e))
            | .ok _ =>
              match env.uploadResult with
              | .error _ =>
                (ev, .error ("failed to upload new backup: " ++ uploadErrChanFmt))
              | .ok _ => (ev ++ [Event.logInfo ("uploaded backup " ++ key)], .ok ())

/-- Run stops Plex, performs the backup, then starts Plex again: retention
lookup, optional service stop, the backup pipeline, optional service start,
then best-effort deletion of the previously oldest object. -/
def Run (env : Env) (o : Opts) : List Event × Except String Unit :=
  match oldestObject env o.bucket o.pfx with
  | (ev0, .error e) => (ev0, .error ("failed to retrieve oldest backup: " ++ e))
  | (ev0, .ok oldest) =>
    let pauseRes : List Event × Except String Unit :=
      if o.noPause then ([], .ok ())
      else
        match env.stopResult with
        | .error e =>
          ([Event.logDebug "stopping Plex", Event.systemctlStop o.service],
            .error ("failed to stop plex: " ++ e))
        | .ok _ =>
          ([Event.logDebug "stopping Plex", Event.systemctlStop o.service,
            Event.logDebug "stopped Plex"], .ok ())
    match pauseRes with
    | (ev1, .error e) => (ev0 ++ ev1, .error e)
    | (ev1, .ok _) =>
      match backup env o with
      | (ev2, .error e) => (ev0 ++ ev1 ++ ev2, .error e)
      | (ev2, .ok _) =>
        let resumeRes : List Event × Except String Unit :=
          if o.noPause then ([], .ok ())
          else
            match env.startResult with
            | .error e =>
              ([Event.logDebug "starting Plex", Event.systemctlStart o.service],
                .error ("failed to start plex: " ++ e))
            | .ok _ =>
              ([Event.logDebug "starting Plex", Event.systemctlStart o.service,
                Event.logDebug "started Plex"], .ok ())
        match resumeRes with
        | (ev3, .error e) => (ev0 ++ ev1 ++ ev2 ++ ev3, .error e)
        | (ev3, .ok _) =>
          match oldest with
          | none => (ev0 ++ ev1 ++ ev2 ++ ev3, .ok ())
          | some obj =>
            match env.deleteResult with
            | .error e =>
              (ev0 ++ ev1 ++ ev2 ++ ev3 ++
                [Event.deleteObject o.bucket obj.key,
                  Event.logWarn ("failed to delete old backup " ++ obj.key ++ ": " ++ e)],
                .ok ())
            | .ok _ =>
              (ev0 ++ ev1 ++ ev2 ++ ev3 ++
                [Event.deleteObject o.bucket obj.key,
                  Event.logDebug ("deleted oldest backup " ++ obj.key)],
                .ok ())

/-- The parsed command-line flags of main.go (field names follow the flag
names; the prefix flag is rendered pfx). -/
structure Flags where
  version : Bool
  isDebug : Bool
  bucket : String
  region : String
  pfx : String
  noPause : Bool
  service : String
  directory : String
deriving Repr

/-- ErrNoBucket from main.go. -/
def errNoBucket : String := "bucket name must be specified with -bucket"

/-- An externally visible step of the CLI layer: printing the version,
emitting the launching debug log, resolving the AWS configuration,
constructing the S3 client, or one of the S3 and systemctl interactions
performed by backup.Run. -/
inductive AppEvent where
  | printVersion
  | logLaunching
  | loadConfig (region : String)
  | newS3Client
  | s3 (e : Event)
deriving DecidableEq, Repr

/-- The app function of main.go: after flag parsing, print the version and
stop if -version was given; reject an empty -bucket with ErrNoBucket; build
the logger and load the AWS configuration; construct the S3 client and hand
over to backup.Run. -/
def app (flags : Flags) (env : Env) (cfgResult : Except String Unit) :
    List AppEvent × Except String Unit :=
  if flags.version then ([AppEvent.printVersion], .ok ())
  else if flags.bucket = "" then ([], .error errNoBucket)
  else
    match cfgResult with
    | .error e =>
      ([AppEvent.logLaunching, AppEvent.loadConfig flags.region],
        .error ("failed to initialise AWS SDK: " ++ e))
    | .ok _ =>
      let o : Opts :=
        { noPause := flags.noPause, service := flags.service,
          directory := flags.directory, bucket := flags.bucket, pfx := flags.pfx }
      let r := Run env o
      ([AppEvent.logLaunching, AppEvent.loadConfig flags.region, AppEvent.newS3Client] ++
        r.1.map AppEvent.s3, r.2)

/-- Number of events of a given shape in a trace. -/
def countEvent (p : Event → Bool) (t : List Event) : Nat :=
  (t.filter p).length

/-- Recognises a systemctl stop invocation. -/
def isStop : Event → Bool
  | .systemctlStop _ => true
  | _ => false

/-- Recognises a systemctl start invocation. -/
def isStart : Event → Bool
  | .systemctlStart _ => true
  | _ => false

/-- Recognises an Upload SDK call. -/
def isUpload : Event → Bool
  | .upload _ _ => true
  | _ => false

/-- Recognises a DeleteObject SDK call. -/
def isDelete : Event → Bool
  | .deleteObject _ _ => true
  | _ => false

/-- Recognises a warning-level log record. -/
def isWarn : Event → Bool
  | .logWarn _ => true
  | _ => false

/-- Recognises an external call (an S3 API call or a systemctl invocation),
as opposed to a log record. -/
def isExternal : Event → Bool
  | .listObjects _ _ => true
  | .systemctlStop _ => true
  | .systemctlStart _ => true
  | .upload _ _ => true
  | .deleteObject _ _ => true
  | _ => false

/-- The external calls of a trace, in order. -/
def externalCalls (t : List Event) : List Event :=
  t.filter isExternal

/-- A trace with the systemctl invocations removed. -/
def stripSystemctl (t : List Event) : List Event :=
  t.filter (fun e => !(isStop e || isStart e))

/-- True exactly on an error result. -/
def isErr : Except String Unit → Bool
  | .error _ => true
  | .ok _ => false

/-! ## Concrete inputs used by witnesses and counterexamples -/

/-- A concrete wall-clock instant. -/
def t2019 : UTCTime := ⟨2019, 1, 6, 22, 38, 21⟩

/-- A pre-existing backup object. -/
def objOld : S3Object := ⟨"plex/2018-12-30T22:38:21Z.tar.zst", 100⟩

/-- A concrete listing with three objects; the second is the oldest. -/
def objsThree : List S3Object :=
  [⟨"plex/a.tar.zst", 5⟩, ⟨"plex/b.tar.zst", 3⟩, ⟨"plex/c.tar.zst", 7⟩]

/-- An environment in which every external interaction succeeds and the
listing holds one old backup. -/
def envOK : Env :=
  { now := t2019, listing := .ok [objOld], stopResult := .ok (),
    tarStdoutPipeResult := .ok (), zstdNewWriterResult := .ok (),
    tarStartResult := .ok (), tarWaitResult := .ok (), zstdReadResult := .ok (),
    encCloseResult := .ok (), uploadResult := .ok (), startResult := .ok (),
    deleteResult := .ok () }

/-- Concrete options with pausing enabled. -/
def optsPause : Opts :=
  ⟨false, "plexmediaserver.service",
    "/var/lib/plexmediaserver/Library/Application Support/Plex Media Server",
    "bkt", "plex/"⟩

/-! ## Properties of the retention finder -/

/-- Folding the selection loop from an existing candidate yields a candidate
that is the starting one or a listed object, is no younger than the starting
candidate, and is no younger than any listed object. -/
lemma oldestStep_foldl (objs : List S3Object) (a : S3Object) :
    ∃ b, List.foldl oldestStep (some a) objs = some b ∧ (b = a ∨ b ∈ objs) ∧
      b.lastModified ≤ a.lastModified ∧
      ∀ o ∈ objs, b.lastModified ≤ o.lastModified := by
  induction objs generalizing a with
  | nil => exact ⟨a, rfl, Or.inl rfl, le_refl _, by simp⟩
  | cons o t ih =>
    by_cases h : o.lastModified < a.lastModified
    · obtain ⟨b, hb, hmem, hle, hall⟩ := ih o
      refine ⟨b, ?_, ?_, ?_, ?_⟩
      · simpa [oldestStep, h] using hb
      · rcases hmem with rfl | hmem
        · exact Or.inr (List.mem_cons_self _ _)
        · exact Or.inr (List.mem_cons_of_mem _ hmem)
      · exact le_trans hle (le_of_lt h)
      · intro x hx
        rcases List.mem_cons.mp hx with rfl | hx
        · exact hle
        · exact hall x hx
    · obtain ⟨b, hb, hmem, hle, hall⟩ := ih a
      refine ⟨b, ?_, ?_, hle, ?_⟩
      · simpa [oldestStep, h] using hb
      · rcases hmem with rfl | hmem
        · exact Or.inl rfl
        · exact Or.inr (List.mem_cons_of_mem _ hmem)
      · intro x hx
        rcases List.mem_cons.mp hx with rfl | hx
        · exact le_trans hle (le_of_not_lt h)
        · exact hall x hx

/-- oldestOf of a non-empty listing is a listed object of minimal
LastModified; oldestOf of an empty listing is none. -/
lemma oldestOf_spec (objs : List S3Object) :
    (objs = [] → oldestOf objs = none) ∧
    (objs ≠ [] → ∃ obj, oldestOf objs = some obj ∧ obj ∈ objs ∧
      ∀ other ∈ objs, obj.lastModified ≤ other.lastModified) := by
  constructor
  · rintro rfl; rfl
  · intro hne
    match objs, hne with
    | o :: t, _ =>
      obtain ⟨b, hb, hmem, hle, hall⟩ := oldestStep_foldl t o
      refine ⟨b, ?_, ?_, ?_⟩
      · simpa [oldestOf, oldestStep] using hb
      · rcases hmem with rfl | hmem
        · exact List.mem_cons_self _ _
        · exact List.mem_cons_of_mem _ hmem
      · intro x hx
        rcases List.mem_cons.mp hx with rfl | hx
        · exact hle
        · exact hall x hx


/-- Claim C2: for every bucket and prefix, when the underlying listing call
succeeds, oldestObject returns the listed object whose last-modified
timestamp is the minimum over all objects returned for that prefix, and
returns none when the listing is empty. -/
theorem oldestObject_returns_minimum (env : Env) (bucket pfx : String)
    (objs : List S3Object) (hl : env.listing = .ok objs) :
    (objs = [] → (oldestObject env bucket pfx).2 = .ok none) ∧
    (objs ≠ [] → ∃ obj, (oldestObject env bucket pfx).2 = .ok (some obj) ∧
      obj ∈ objs ∧ ∀ other ∈ objs, obj.lastModified ≤ other.lastModified) := by
  have hspec := oldestOf_spec objs
  constructor
  · intro he
    simp [oldestObject, hl, hspec.1 he]
  · intro hne
    obtain ⟨obj, hobj, hmem, hmin⟩ := hspec.2 hne
    exact ⟨obj, by simp [oldestObject, hl, hobj], hmem, hmin⟩

/-- An environment whose listing returns the three-object fixture. -/
def envListThree : Env := { envOK with listing := .ok objsThree }

/-- Witness for C2 at a concrete listing: the minimum-timestamp object is
found among three objects. -/
theorem oldestObject_returns_minimum_witness :
    ∃ obj, (oldestObject envListThree "bkt" "plex/").2 = .ok (some obj) ∧
      obj ∈ objsThree ∧
      ∀ other ∈ objsThree, obj.lastModified ≤ other.lastModified :=
  (oldestObject_returns_minimum envListThree "bkt" "plex/" objsThree rfl).2
    (by decide)

/-! ## Shape of the backup pipeline's trace and result -/

/-- The trace of backup is empty, or the single Upload call, or the Upload
call followed by the success log record. -/
lemma backup_trace_shape (env : Env) (o : Opts) :
    (backup env o).1 = [] ∨
    (backup env o).1 = [Event.upload o.bucket (backupKey o.pfx env.now)] ∨
    (backup env o).1 = [Event.upload o.bucket (backupKey o.pfx env.now),
      Event.logInfo ("uploaded backup " ++ backupKey o.pfx env.now)] := by
  obtain ⟨now, listing, stopR, pipeR, znewR, tstartR, twaitR, zreadR, ecloseR,
    uplR, sstartR, delR⟩ := env
  cases pipeR <;> cases znewR <;> cases tstartR <;> cases twaitR <;>
    cases zreadR <;> cases ecloseR <;> cases uplR <;> simp [backup]

/-- When backup succeeds, its trace is exactly the Upload call followed by
the success log record. -/
lemma backup_ok_trace (env : Env) (o : Opts) (h : (backup env o).2 = .ok ()) :
    (backup env o).1 = [Event.upload o.bucket (backupKey o.pfx env.now),
      Event.logInfo ("uploaded backup " ++ backupKey o.pfx env.now)] := by
  obtain ⟨now, listing, stopR, pipeR, znewR, tstartR, twaitR, zreadR, ecloseR,
    uplR, sstartR, delR⟩ := env
  cases pipeR <;> cases znewR <;> cases tstartR <;> cases twaitR <;>
    cases zreadR <;> cases ecloseR <;> cases uplR <;> simp_all [backup]

/-! ## Lookup failure aborts the run (C6) -/

/-- Claim C6: when the retention lookup fails, Run returns an error
immediately and the trace holds nothing but the listing call: no service
stop, no upload, no delete. -/
theorem run_lookup_failure_aborts (env : Env) (o : Opts) (e : String)
    (hl : env.listing = .error e) :
    (Run env o).1 = [Event.listObjects o.bucket o.pfx] ∧
    (Run env o).2 = .error ("failed to retrieve oldest backup: " ++ e) := by
  simp [Run, oldestObject, hl]

/-- An environment whose listing call fails. -/
def envListFail : Env := { envOK with listing := .error "503 slow down" }

/-- Witness for C6: a failing listing leaves exactly one event, the listing
call itself, and an error mentioning the lookup stage. -/
theorem run_lookup_failure_aborts_witness :
    (Run envListFail optsPause).1 = [Event.listObjects "bkt" "plex/"] ∧
    (Run envListFail optsPause).2 =
      .error ("failed to retrieve oldest backup: " ++ "503 slow down") :=
  run_lookup_failure_aborts envListFail optsPause "503 slow down" rfl

/-! ## Pipeline failure and the resume step (C1) -/

/-- An environment in which tar exits non-zero (the pipeline fails) and
every other interaction would succeed. -/
def envTarWaitFail : Env := { envOK with tarWaitResult := .error "exit status 2" }

/-- Counterexample to claim C1 as stated: with pausing enabled, a
successful stop and a failing pipeline, Run returns an error but the
service-start operation is invoked zero times, not once. -/
theorem run_pipeline_failure_no_resume_cex :
    optsPause.noPause = false ∧
    envTarWaitFail.stopResult = .ok () ∧
    isErr (backup envTarWaitFail optsPause).2 = true ∧
    isErr (Run envTarWaitFail optsPause).2 = true ∧
    countEvent isStart (Run envTarWaitFail optsPause).1 = 0 := by
  refine ⟨rfl, rfl, rfl, rfl, rfl⟩

/-- Claim C1 amended: with pausing enabled, a successful stop and a failing
archive/compress/upload pipeline, Run returns the pipeline's error without
invoking the service-start operation at all; the resume is not attempted on
pipeline failure. -/
theorem run_pipeline_failure_skips_resume (env : Env) (o : Opts)
    (objs : List S3Object) (hl : env.listing = .ok objs)
    (hp : o.noPause = false) (hs : env.stopResult = .ok ())
    (hb : isErr (backup env o).2 = true) :
    (Run env o).2 = (backup env o).2 ∧
    countEvent isStart (Run env o).1 = 0 ∧
    isErr (Run env o).2 = true := by
  rcases hbe : backup env o with ⟨ev2, r2⟩
  cases r2 with
  | ok u => rw [hbe] at hb; simp [isErr] at hb
  | error e =>
    have hshape := backup_trace_shape env o
    rw [hbe] at hshape
    have hrun : Run env o =
        ([Event.listObjects o.bucket o.pfx] ++
          [Event.logDebug "stopping Plex", Event.systemctlStop o.service,
            Event.logDebug "stopped Plex"] ++ ev2, .error e) := by
      simp [Run, oldestObject, hl, hp, hs, hbe]
    refine ⟨?_, ?_, ?_⟩
    · rw [hrun]
    · rw [hrun]
      rcases hshape with h2 | h2 | h2 <;> subst h2 <;>
        simp [countEvent, isStart]
    · rw [hrun]
      rfl

/-- Witness for the amended C1 at the concrete tar failure. -/
theorem run_pipeline_failure_skips_resume_witness :
    (Run envTarWaitFail optsPause).2 = (backup envTarWaitFail optsPause).2 ∧
    countEvent isStart (Run envTarWaitFail optsPause).1 = 0 ∧
    isErr (Run envTarWaitFail optsPause).2 = true :=
  run_pipeline_failure_skips_resume envTarWaitFail optsPause [objOld] rfl rfl rfl
    rfl

/-! ## The prune phase (C3, C5) -/

/-- An object selected by the retention loop is one of the listed objects. -/
lemma oldestOf_mem (objs : List S3Object) (obj : S3Object)
    (h : oldestOf objs = some obj) : obj ∈ objs := by
  cases objs with
  | nil => simp [oldestOf] at h
  | cons a t =>
    obtain ⟨b, hb, hmem, _, _⟩ := oldestStep_foldl t a
    have hba : List.foldl oldestStep (some a) t = some obj := by
      simpa [oldestOf, oldestStep] using h
    have : b = obj := by
      have := hb.symm.trans hba
      exact Option.some.injEq _ _ ▸ (by simpa using this)
    subst this
    rcases hmem with rfl | hmem
    · exact List.mem_cons_self _ _
    · exact List.mem_cons_of_mem _ hmem

/-- The DeleteObject calls of a run: none, or exactly one, targeting the
bucket and the key of the object that the pre-upload listing identified as
oldest; when a delete happened the run result is success, and a failing
delete leaves exactly one warning record. -/
lemma run_prune_phase (env : Env) (o : Opts) (objs : List S3Object)
    (hl : env.listing = .ok objs) :
    ((Run env o).1.filter isDelete = [] ∨
      ∃ obj, oldestOf objs = some obj ∧
        (Run env o).1.filter isDelete = [Event.deleteObject o.bucket obj.key]) ∧
    ((Run env o).1.filter isDelete ≠ [] → (Run env o).2 = .ok ()) ∧
    ((Run env o).1.filter isDelete ≠ [] → ∀ e, env.deleteResult = .error e →
      countEvent isWarn (Run env o).1 = 1) := by
  rcases hbe : backup env o with ⟨ev2, r2⟩
  have hshape := backup_trace_shape env o
  rw [hbe] at hshape
  cases hnp : o.noPause <;> cases hsr : env.stopResult <;> cases r2 <;>
    cases hss : env.startResult <;> cases hold : oldestOf objs <;>
    cases hdr : env.deleteResult <;>
    rcases hshape with h2 | h2 | h2 <;> subst h2 <;>
    simp [Run, oldestObject, hl, hnp, hsr, hbe, hss, hold, hdr, isDelete,
      countEvent, isWarn]

/-- Claim C3: a DeleteObject call is made only when the pre-upload lookup
found an object (no delete when the prefix was empty beforehand), and any
delete targets exactly the bucket and the key of the object identified as
oldest before the upload began — never the newly uploaded key, the
generated key being fresh. -/
theorem run_delete_targets_preupload_oldest (env : Env) (o : Opts)
    (objs : List S3Object) (hl : env.listing = .ok objs)
    (hfresh : backupKey o.pfx env.now ∉ objs.map S3Object.key) :
    (objs = [] → countEvent isDelete (Run env o).1 = 0) ∧
    (∀ b k, Event.deleteObject b k ∈ (Run env o).1 →
      b = o.bucket ∧ (∃ obj, oldestOf objs = some obj ∧ k = obj.key) ∧
      k ≠ backupKey o.pfx env.now) := by
  obtain ⟨hdisj, _, _⟩ := run_prune_phase env o objs hl
  constructor
  · intro he
    subst he
    rcases hdisj with h | ⟨obj, hobj, _⟩
    · simp [countEvent, h]
    · simp [oldestOf] at hobj
  · intro b k hmem
    have hkin : Event.deleteObject b k ∈ (Run env o).1.filter isDelete :=
      List.mem_filter.mpr ⟨hmem, by simp [isDelete]⟩
    rcases hdisj with h | ⟨obj, hobj, hfil⟩
    · rw [h] at hkin
      simp at hkin
    · rw [hfil] at hkin
      simp only [List.mem_singleton, Event.deleteObject.injEq] at hkin
      obtain ⟨hb, hk⟩ := hkin
      refine ⟨hb, ⟨obj, hobj, hk⟩, ?_⟩
      intro hcontra
      apply hfresh
      rw [← hcontra, hk]
      exact List.mem_map_of_mem S3Object.key (oldestOf_mem objs obj hobj)

/-- Witness for C3: in the all-success run over a one-object listing, the
single delete targets the pre-existing object's key, which differs from the
newly generated key. -/
theorem run_delete_targets_preupload_oldest_witness :
    Event.deleteObject "bkt" objOld.key ∈ (Run envOK optsPause).1 ∧
    ("bkt" = optsPause.bucket ∧
      (∃ obj, oldestOf [objOld] = some obj ∧ objOld.key = obj.key) ∧
      objOld.key ≠ backupKey optsPause.pfx envOK.now) :=
  ⟨by decide,
    (run_delete_targets_preupload_oldest envOK optsPause [objOld] rfl
      (by decide)).2 "bkt" objOld.key (by decide)⟩

/-- Claim C5: whenever the run made a DeleteObject call, the run result is
success, whatever the delete's outcome; a failing delete additionally
leaves exactly one warning-level log record. A prune failure is never
turned into an error return. -/
theorem run_prune_failure_nonfatal (env : Env) (o : Opts)
    (objs : List S3Object) (hl : env.listing = .ok objs)
    (hmade : countEvent isDelete (Run env o).1 ≠ 0) :
    (Run env o).2 = .ok () ∧
    (∀ e, env.deleteResult = .error e →
      countEvent isWarn (Run env o).1 = 1) := by
  obtain ⟨_, hok, hwarn⟩ := run_prune_phase env o objs hl
  have hne : (Run env o).1.filter isDelete ≠ [] := by
    intro h
    apply hmade
    simp [countEvent, h]
  exact ⟨hok hne, fun e he => hwarn hne e he⟩

/-- An environment in which only the DeleteObject call fails. -/
def envDeleteFail : Env := { envOK with deleteResult := .error "access denied" }

/-- Witness for C5: with a failing delete, the run still returns success and
logs one warning. -/
theorem run_prune_failure_nonfatal_witness :
    (Run envDeleteFail optsPause).2 = .ok () ∧
    countEvent isWarn (Run envDeleteFail optsPause).1 = 1 :=
  ⟨(run_prune_failure_nonfatal envDeleteFail optsPause [objOld] rfl
      (by decide)).1,
    (run_prune_failure_nonfatal envDeleteFail optsPause [objOld] rfl
      (by decide)).2 "access denied" rfl⟩

/-! ## Resume failure after a successful backup (C4) -/

/-- An environment in which only the service-start command fails. -/
def envStartFail : Env := { envOK with startResult := .error "resume failed" }

/-- Counterexample to claim C4 as stated: with pausing enabled, a successful
upload and a failing resume, Run reports an error and the upload happened,
but the delete of the old object is not performed (the claim asserts it
still is). -/
theorem run_resume_failure_skips_delete_cex :
    optsPause.noPause = false ∧
    (backup envStartFail optsPause).2 = .ok () ∧
    isErr (Run envStartFail optsPause).2 = true ∧
    countEvent isUpload (Run envStartFail optsPause).1 = 1 ∧
    countEvent isDelete (Run envStartFail optsPause).1 = 0 := by
  refine ⟨rfl, rfl, rfl, rfl, rfl⟩

/-- Claim C4 amended: with pausing enabled, when the backup upload succeeds
and the subsequent service-start fails, Run reports an error containing the
resume failure and the upload has still been performed, but the delete of
the previously oldest object is skipped because of the resume failure. -/
theorem run_resume_failure_reports_both (env : Env) (o : Opts)
    (objs : List S3Object) (e : String) (hl : env.listing = .ok objs)
    (hp : o.noPause = false) (hs : env.stopResult = .ok ())
    (hb : (backup env o).2 = .ok ()) (hst : env.startResult = .error e) :
    (Run env o).2 = .error ("failed to start plex: " ++ e) ∧
    countEvent isUpload (Run env o).1 = 1 ∧
    countEvent isDelete (Run env o).1 = 0 := by
  have htr := backup_ok_trace env o hb
  rcases hbe : backup env o with ⟨ev2, r2⟩
  rw [hbe] at htr hb
  simp only [] at htr hb
  cases r2 with
  | error e2 => simp at hb
  | ok u =>
    subst htr
    have hrun : Run env o =
        ([Event.listObjects o.bucket o.pfx] ++
          [Event.logDebug "stopping Plex", Event.systemctlStop o.service,
            Event.logDebug "stopped Plex"] ++
          [Event.upload o.bucket (backupKey o.pfx env.now),
            Event.logInfo ("uploaded backup " ++ backupKey o.pfx env.now)] ++
          [Event.logDebug "starting Plex", Event.systemctlStart o.service],
          .error ("failed to start plex: " ++ e)) := by
      simp [Run, oldestObject, hl, hp, hs, hbe, hst]
    rw [hrun]
    refine ⟨rfl, ?_, ?_⟩ <;> simp [countEvent, isUpload, isDelete]

/-- Witness for the amended C4 at the concrete resume failure. -/
theorem run_resume_failure_reports_both_witness :
    (Run envStartFail optsPause).2 =
      .error ("failed to start plex: " ++ "resume failed") ∧
    countEvent isUpload (Run envStartFail optsPause).1 = 1 ∧
    countEvent isDelete (Run envStartFail optsPause).1 = 0 :=
  run_resume_failure_reports_both envStartFail optsPause [objOld] "resume failed"
    rfl rfl rfl rfl rfl

/-! ## Generated object key format (C7) -/

/-- Every Upload call of a run targets the Opts bucket and carries exactly
the generated backup key. -/
lemma run_upload_events (env : Env) (o : Opts) :
    ∀ b k, Event.upload b k ∈ (Run env o).1 →
      b = o.bucket ∧ k = backupKey o.pfx env.now := by
  intro b k hmem
  rcases hbe : backup env o with ⟨ev2, r2⟩
  have hshape := backup_trace_shape env o
  rw [hbe] at hshape
  cases hlst : env.listing with
  | error e =>
    simp [Run, oldestObject, hlst] at hmem
  | ok objs =>
    cases hnp : o.noPause <;> cases hsr : env.stopResult <;> cases r2 <;>
      cases hss : env.startResult <;> cases hold : oldestOf objs <;>
      cases hdr : env.deleteResult <;> rcases hshape with h2 | h2 | h2 <;>
      subst h2 <;>
      simp [Run, oldestObject, hlst, hnp, hsr, hbe, hss, hold, hdr] at hmem <;>
      simp_all

/-- Claim C7: the generated backup object key is the prefix concatenated
verbatim with the RFC3339-formatted UTC timestamp and the fixed .tar.zst
suffix, with no separator auto-inserted between prefix and timestamp; every
Upload call of a run carries exactly this key. -/
theorem backup_key_format (env : Env) (o : Opts) :
    backupKey o.pfx env.now = o.pfx ++ formatRFC3339 env.now ++ ".tar.zst" ∧
    ∀ b k, Event.upload b k ∈ (Run env o).1 →
      b = o.bucket ∧ k = o.pfx ++ formatRFC3339 env.now ++ ".tar.zst" := by
  refine ⟨rfl, fun b k hmem => ?_⟩
  exact run_upload_events env o b k hmem

/-- Witness for C7: the all-success run uploads under the key obtained by
concatenating the prefix, the rendered timestamp and the suffix, with no
separator in between. -/
theorem backup_key_format_witness :
    "bkt" = optsPause.bucket ∧
    "plex/2019-01-06T22:38:21Z.tar.zst" =
      optsPause.pfx ++ formatRFC3339 envOK.now ++ ".tar.zst" :=
  (backup_key_format envOK optsPause).2 "bkt"
    "plex/2019-01-06T22:38:21Z.tar.zst" (by decide)

/-! ## Pausing disabled omits service control entirely (C8) -/

/-- The backup pipeline never reads NoPause: flipping it leaves backup
unchanged. -/
lemma backup_noPause_congr (env : Env) (o : Opts) (b : Bool) :
    backup env { o with noPause := b } = backup env o := by
  obtain ⟨np, sv, dir, bk, px⟩ := o
  rfl

/-- Claim C8: with pausing disabled, no systemctl invocation occurs at all,
whether the run succeeds or fails; and when the paused variant's stop and
start commands would succeed, the two variants perform the same external
call sequence apart from the stop/start pair, with identical results. -/
theorem run_nopause_no_service_calls (env : Env) (o : Opts)
    (h : o.noPause = true) :
    countEvent isStop (Run env o).1 = 0 ∧
    countEvent isStart (Run env o).1 = 0 ∧
    (env.stopResult = .ok () → env.startResult = .ok () →
      externalCalls (Run env o).1 =
        stripSystemctl (externalCalls (Run env { o with noPause := false }).1) ∧
      (Run env o).2 = (Run env { o with noPause := false }).2) := by
  rcases hbe : backup env o with ⟨ev2, r2⟩
  have hshape := backup_trace_shape env o
  rw [hbe] at hshape
  have hcongr := backup_noPause_congr env o false
  rw [hbe] at hcongr
  cases hlst : env.listing with
  | error e =>
    refine ⟨?_, ?_, fun hstop hstart => ?_⟩ <;>
      simp [Run, oldestObject, hlst, countEvent, isStop, isStart,
        externalCalls, stripSystemctl, isExternal]
  | ok objs =>
    cases r2 <;> cases hold : oldestOf objs <;> cases hdr : env.deleteResult <;>
      rcases hshape with h2 | h2 | h2 <;> subst h2 <;>
      refine ⟨?_, ?_, fun hstop hstart => ?_⟩ <;>
      simp_all [Run, oldestObject, countEvent, isStop, isStart,
        externalCalls, stripSystemctl, isExternal]

/-- Concrete options with pausing disabled. -/
def optsNoPause : Opts := { optsPause with noPause := true }

/-- Witness for C8 on the all-success environment. -/
theorem run_nopause_no_service_calls_witness :
    countEvent isStop (Run envOK optsNoPause).1 = 0 ∧
    countEvent isStart (Run envOK optsNoPause).1 = 0 ∧
    (externalCalls (Run envOK optsNoPause).1 =
      stripSystemctl
        (externalCalls (Run envOK { optsNoPause with noPause := false }).1) ∧
    (Run envOK optsNoPause).2 =
      (Run envOK { optsNoPause with noPause := false }).2) := by
  have h := run_nopause_no_service_calls envOK optsNoPause rfl
  exact ⟨h.1, h.2.1, h.2.2 rfl rfl⟩

/-! ## The upload-failure error drops the underlying cause (C9) -/

/-- An environment in which only the S3 upload fails, with one error. -/
def envUploadFail : Env :=
  { envOK with uploadResult := .error "connection reset by peer" }

/-- The same environment with a different upload error. -/
def envUploadFail2 : Env := { envOK with uploadResult := .error "access denied" }

/-- Evidence for the C9 code bug: the upload-failure branch formats the
uploadErr channel instead of the received error, so the error backup
returns is a fixed message that is identical for two different underlying
upload errors — the actual storage-client error is not described. -/
theorem backup_upload_error_drops_cause :
    (backup envUploadFail optsPause).2 =
      .error ("failed to upload new backup: " ++ uploadErrChanFmt) ∧
    (backup envUploadFail optsPause).2 = (backup envUploadFail2 optsPause).2 ∧
    envUploadFail.uploadResult ≠ envUploadFail2.uploadResult := by
  refine ⟨rfl, rfl, fun h => ?_⟩
  simp [envUploadFail, envUploadFail2, envOK] at h

/-! ## CLI rejects a missing bucket before any external work (C10) -/

/-- Claim C10: when the version flag is not set and the bucket flag is
empty, app returns ErrNoBucket with an empty trace: no configuration load,
no S3 client construction, and no backup.Run invocation of any kind. -/
theorem app_empty_bucket_aborts (flags : Flags) (env : Env)
    (cfg : Except String Unit) (hv : flags.version = false)
    (hb : flags.bucket = "") :
    app flags env cfg = ([], .error errNoBucket) := by
  simp [app, hv, hb]

/-- Concrete flags with default values and an unset bucket. -/
def flagsNoBucket : Flags :=
  ⟨false, false, "", "us-east-1", "plex/", false, "plexmediaserver.service",
    "/var/lib/plexmediaserver/Library/Application Support/Plex Media Server"⟩

/-- Witness for C10 at the default flags. -/
theorem app_empty_bucket_aborts_witness :
    app flagsNoBucket envOK (.ok ()) = ([], .error errNoBucket) :=
  app_empty_bucket_aborts flagsNoBucket envOK (.ok ()) rfl rfl
